import Mathlib

/-!
Shallow embedding of `spyne/descriptor.py`: the `MethodDescriptor` data model,
its construction-time derivations, and its key/translation/header operations.
Python strings are Lean `String`s, Python `None` is `Option.none`, Python
dicts are association lists, and the fallible paths (`assert`, `raise
LogicError`) are modelled with `Option` / `Except`.
-/

namespace Spyne

/-- The five body-style tag classes `BODY_STYLE_*` from the source. -/
inductive BodyStyle where
  | WRAPPED
  | EMPTY
  | BARE
  | OUT_BARE
  | EMPTY_OUT_BARE
deriving DecidableEq, Repr

/-- Modelled from the spec: the framework's reserved default namespace
`spyne.const.xml_ns.DEFAULT_NS` is an external sentinel value (its module is
not part of this file); the identity comparison `ns is DEFAULT_NS` in the
source is modelled as equality with this distinguished string. -/
def DEFAULT_NS : String := "__spyne_default_ns__"

/-- A message type (a `ComplexModel` subclass used as `in_message` /
`out_message`): exposes a namespace (`get_namespace`), a type name
(`get_type_name`) and an optional `Attributes.sub_name`. The accessors are
external collaborators, modelled as record fields. -/
structure MessageType where
  namespace_ : String
  type_name : String
  sub_name : Option String
deriving DecidableEq, Repr

/-- The get_namespace accessor of a message type. -/
def MessageType.get_namespace (m : MessageType) : String := m.namespace_

/-- The get_type_name accessor of a message type. -/
def MessageType.get_type_name (m : MessageType) : String := m.type_name

/-- A callable reference; `six.get_function_name` reads its declared name. -/
structure FunctionRef where
  name : String
deriving DecidableEq, Repr

/-- The helper `six.get_function_name`: the declared name of a function
object. -/
def get_function_name (f : FunctionRef) : String := f.name

/-- A `ServiceBase` subclass reference, as consumed by `internal_key` and
`gen_interface_key`: exposes `__module__`, `__name__`, an optional declared
service name, and `get_internal_key()` (external collaborator, modelled as a
field). -/
structure ServiceClass where
  module : String
  name : String
  service_name : Option String
  internal_key : String
deriving DecidableEq, Repr

/-- Modelled from the spec: `ServiceBase.get_service_name` (in
`spyne/service.py`, not part of this file) returns the service's declared
service name if the abstraction defines one, else the raw type name. -/
def ServiceClass.get_service_name (s : ServiceClass) : String :=
  match s.service_name with
  | some n => n
  | Option.none => s.name

/-- A `ComplexModel` subclass reference used as `parent_class` or as the
member-bound owner in `gen_interface_key`: exposes `__module__`, `__name__`,
`get_namespace()` (`Option.none` models an unset / `None` namespace) and
`get_type_name()`. -/
structure ParentClass where
  module : String
  name : String
  namespace_ : Option String
  type_name : String
deriving DecidableEq, Repr

/-- The get_namespace accessor of a structured type; `Option.none` models
a `None` namespace. -/
def ParentClass.get_namespace (c : ParentClass) : Option String := c.namespace_

/-- The get_type_name accessor of a structured type. -/
def ParentClass.get_type_name (c : ParentClass) : String := c.type_name

/-- The class argument of `gen_interface_key`: either a `ServiceBase`
subclass (`issubclass(cls, ServiceBase)` holds) or a structured type. -/
inductive OwnerClass where
  | service (s : ServiceClass)
  | complexType (c : ParentClass)
deriving DecidableEq, Repr

/-- Python truthiness-based fallback `v or d` on an optional string: `None`
and the empty string are falsy and select the fallback. -/
def pyOrStr (v : Option String) (d : String) : String :=
  match v with
  | Option.none => d
  | some s => if s = "" then d else s

/-- The characters before the first dot, or the whole list when there is
none. -/
def firstSegAux : List Char → List Char
  | [] => []
  | c :: cs => if c = '.' then [] else c :: firstSegAux cs

/-- The first dot-separated segment: what Python `s.split` with separator
dot and maxsplit 1 yields at index 0 - the text before the first dot, or
all of `s` when there is no dot. -/
def firstSegment (s : String) : String :=
  String.mk (firstSegAux s.data)

/-- A Python value supplied to (or stored by) the `in_header` / `out_header`
setters: `None`, a single `ModelBase` subclass reference, a tuple, or any
other object (for which `issubclass` raises `TypeError` or returns `False`
and the `assert` then fails). -/
inductive HeaderVal where
  | pynone
  | model (m : Nat)
  | tup (xs : List HeaderVal)
  | other (tag : Nat)

/-- The shared body of the `in_header` / `out_header` property setters: a
bare `ModelBase` subclass is wrapped into a one-element tuple; then
`assert in_header is None or isinstance(in_header, tuple)`; `Option.none`
models the assertion failure, `some v` the stored value. -/
def set_header (v : HeaderVal) : Option HeaderVal :=
  match v with
  | HeaderVal.model m => some (HeaderVal.tup [HeaderVal.model m])
  | HeaderVal.pynone => some HeaderVal.pynone
  | HeaderVal.tup xs => some (HeaderVal.tup xs)
  | HeaderVal.other _ => Option.none

/-- Errors raised while running `MethodDescriptor.__init__`: the header
setter assertions, or the `LogicError` for `default_on_null`. -/
inductive ConstructError where
  | assertionError
  | logicError (msg : String)
deriving DecidableEq, Repr

/-- The `MethodDescriptor` record: one field per attribute assigned in
`__init__`. `real_function` models the private `__real_function` slot;
`function` is the live rebindable reference maintained by
`reset_function`. Opaque collaborator objects are modelled as `Nat` tags. -/
structure MethodDescriptor where
  real_function : FunctionRef
  function : FunctionRef
  operation_name : String
  internal_key_suffix : String
  in_message : MessageType
  name : String
  out_message : MessageType
  doc : Option String
  is_callback : Bool
  is_async : Bool
  mtom : Bool
  port_type : Option Nat
  in_header : HeaderVal
  out_header : HeaderVal
  faults : List Nat
  no_ctx : Bool
  udd : List (String × Nat)
  class_key : String
  aux : Option Nat
  patterns : List Nat
  body_style : BodyStyle
  args : Option (List String)
  no_self : Bool
  service_class : Option ServiceClass
  parent_class : Option ParentClass
  default_on_null : Option Nat
  translations : Option (List (String × String))
  href : Option Nat
  when : Option Nat
  static_when : Option Nat

/-- The constructor `MethodDescriptor.__init__`, with the parameters in the source's
order. Effects are replayed in source order: `reset_function()` first sets
`function` from the captured callable, `name` is derived once from
`body_style` and `in_message` (lines 67-75), the header setters run their
assertions (lines 93/98), and the `default_on_null` check raises
`LogicError` (lines 155-157). -/
def MethodDescriptor.construct (function : FunctionRef)
    (in_message : MessageType) (out_message : MessageType)
    (doc : Option String) (is_callback : Bool) (is_async : Bool)
    (mtom : Bool) (in_header : HeaderVal) (out_header : HeaderVal)
    (faults : List Nat) (parent_class : Option ParentClass)
    (port_type : Option Nat) (no_ctx : Bool) (udd : List (String × Nat))
    (class_key : String) (aux : Option Nat) (patterns : List Nat)
    (body_style : BodyStyle) (args : Option (List String))
    (operation_name : String) (no_self : Bool)
    (translations : Option (List (String × String)))
    (when : Option Nat) (static_when : Option Nat)
    (service_class : Option ServiceClass) (href : Option Nat)
    (internal_key_suffix : String) (default_on_null : Option Nat) :
    Except ConstructError MethodDescriptor :=
  let name0 : Option String :=
    if body_style = BodyStyle.BARE then in_message.sub_name else Option.none
  let name : String :=
    match name0 with
    | some n => n
    | Option.none => in_message.get_type_name
  match set_header in_header with
  | Option.none => Except.error ConstructError.assertionError
  | some ih =>
    match set_header out_header with
    | Option.none => Except.error ConstructError.assertionError
    | some oh =>
      if default_on_null.isSome && parent_class.isNone then
        Except.error (ConstructError.logicError
          "default_on_null is only to be used inside @mrpc")
      else
        Except.ok
          { real_function := function
            function := function
            operation_name := operation_name
            internal_key_suffix := internal_key_suffix
            in_message := in_message
            name := name
            out_message := out_message
            doc := doc
            is_callback := is_callback
            is_async := is_async
            mtom := mtom
            port_type := port_type
            in_header := ih
            out_header := oh
            faults := faults
            no_ctx := no_ctx
            udd := udd
            class_key := class_key
            aux := aux
            patterns := patterns
            body_style := body_style
            args := args
            no_self := no_self
            service_class := service_class
            parent_class := parent_class
            default_on_null := default_on_null
            translations := translations
            href := href
            when := when
            static_when := static_when }

/-- The method `translate`: a `None` locale becomes the fixed
fallback `en_US`; with a translations dict the result is
`translations.get(locale, default)`, otherwise `default`. -/
def MethodDescriptor.translate (self : MethodDescriptor)
    (locale : Option String) (default : String) : String :=
  let locale : String :=
    match locale with
    | Option.none => "en_US"
    | some l => l
  match self.translations with
  | some ts => (ts.lookup locale).getD default
  | Option.none => default

/-- The `key` property: asserts that the input message's namespace is not
the reserved `DEFAULT_NS` sentinel (`Option.none` models the assertion
failure), then returns the namespace wrapped in braces followed by the type
name. -/
def MethodDescriptor.key (self : MethodDescriptor) : Option String :=
  if self.in_message.get_namespace = DEFAULT_NS then Option.none
  else some ("\x7b" ++ self.in_message.get_namespace ++ "\x7d" ++
             self.in_message.get_type_name)

/-- The `internal_key` property: service-class branch, parent-class branch
with duplicate-class-name elision, or an implicit `None` when neither owner
is set. -/
def MethodDescriptor.internal_key (self : MethodDescriptor) : Option String :=
  match self.service_class with
  | some sc =>
    some ("\x7b" ++ sc.internal_key ++ "\x7d" ++
          get_function_name self.function ++ self.internal_key_suffix)
  | Option.none =>
    match self.parent_class with
    | some pc =>
      let mn := pc.module
      let onm := pc.name
      let dn := self.name
      if firstSegment dn ≠ onm then
        some ("\x7b" ++ mn ++ "\x7d" ++ onm ++ "." ++ dn)
      else
        some ("\x7b" ++ mn ++ "\x7d" ++ dn)
    | Option.none => Option.none

/-- The static method `get_owner_name`: the declared service name for a `ServiceBase`
subclass, else `cls.__name__`. -/
def MethodDescriptor.get_owner_name (cls : OwnerClass) : String :=
  match cls with
  | OwnerClass.service s => s.get_service_name
  | OwnerClass.complexType c => c.name

/-- The method `gen_interface_key`: dotted-key generation, with the
service-class branch (`module.ownerName.name`) and the member branch
(`namespace-or-placeholder.typeName.name` with duplicate-class-name
elision). -/
def MethodDescriptor.gen_interface_key (self : MethodDescriptor)
    (cls : OwnerClass) : String :=
  match cls with
  | OwnerClass.service s =>
    s.module ++ "." ++ MethodDescriptor.get_owner_name cls ++ "." ++ self.name
  | OwnerClass.complexType c =>
    let mn := pyOrStr c.get_namespace "__nons__"
    let onm := c.get_type_name
    let dn := self.name
    if firstSegment dn ≠ onm then
      String.intercalate "." [mn, onm, dn]
    else
      String.intercalate "." [mn, dn]

/-- The method `is_out_bare`: membership of `body_style` in the four-element
tuple of non-wrapped styles. -/
def MethodDescriptor.is_out_bare (self : MethodDescriptor) : Bool :=
  [BodyStyle.EMPTY_OUT_BARE, BodyStyle.EMPTY, BodyStyle.BARE,
   BodyStyle.OUT_BARE].contains self.body_style

/-- The method `reset_function`: with a non-`None` `val` the captured
`__real_function` slot is rebound to `val`; in every case `function` is then
set from the captured slot. -/
def MethodDescriptor.reset_function (self : MethodDescriptor)
    (val : Option FunctionRef) : MethodDescriptor :=
  let rf : FunctionRef :=
    match val with
    | some v => v
    | Option.none => self.real_function
  { self with real_function := rf, function := rf }

/-- Assignment to the `in_header` property: runs the setter and stores the
normalized value; `Option.none` models the assertion failure. -/
def MethodDescriptor.set_in_header (self : MethodDescriptor)
    (v : HeaderVal) : Option MethodDescriptor :=
  (set_header v).map (fun ih => { self with in_header := ih })

/-- Assignment to the `out_header` property: runs the setter and stores the
normalized value; `Option.none` models the assertion failure. -/
def MethodDescriptor.set_out_header (self : MethodDescriptor)
    (v : HeaderVal) : Option MethodDescriptor :=
  (set_header v).map (fun oh => { self with out_header := oh })

/-! Concrete sample collaborator objects and descriptors, used to exercise
the operations on closed inputs. -/

/-- A message type with a proper namespace and a sub-name. -/
def msgA : MessageType :=
  { namespace_ := "urn:ns", type_name := "TypeA", sub_name := some "subA" }

/-- A message type with a proper namespace and no sub-name. -/
def msgB : MessageType :=
  { namespace_ := "urn:ns", type_name := "TypeB", sub_name := Option.none }

/-- A message type still carrying the reserved default namespace. -/
def msgDefNs : MessageType :=
  { namespace_ := DEFAULT_NS, type_name := "TypeC", sub_name := Option.none }

/-- A sample callable reference. -/
def fnF : FunctionRef := { name := "do_thing" }

/-- A sample replacement callable reference. -/
def fnG : FunctionRef := { name := "other_fn" }

/-- A sample service class with a declared service name. -/
def svcS : ServiceClass :=
  { module := "pkg.svc", name := "SomeService", service_name := some "some_svc",
    internal_key := "pkg.svc.SomeService" }

/-- A sample parent (structured) class. -/
def pcP : ParentClass :=
  { module := "pkg.model", name := "Par", namespace_ := some "urn:pns",
    type_name := "ParT" }

/-- The owner type of the elision examples: type name `Foo`. -/
def cFoo : ParentClass :=
  { module := "pkg.model", name := "Foo", namespace_ := some "urn:pns",
    type_name := "Foo" }

/-- A baseline descriptor with neither `service_class` nor `parent_class`. -/
def dPlain : MethodDescriptor :=
  { real_function := fnF
    function := fnF
    operation_name := "op"
    internal_key_suffix := "_sfx"
    in_message := msgA
    name := "mname"
    out_message := msgB
    doc := Option.none
    is_callback := false
    is_async := false
    mtom := false
    port_type := Option.none
    in_header := HeaderVal.pynone
    out_header := HeaderVal.pynone
    faults := []
    no_ctx := false
    udd := []
    class_key := "ck"
    aux := Option.none
    patterns := []
    body_style := BodyStyle.WRAPPED
    args := Option.none
    no_self := true
    service_class := Option.none
    parent_class := Option.none
    default_on_null := Option.none
    translations := Option.none
    href := Option.none
    when := Option.none
    static_when := Option.none }

/-- A descriptor with both `service_class` and `parent_class` set. -/
def dSvc : MethodDescriptor :=
  { dPlain with service_class := some svcS, parent_class := some pcP }

/-- A descriptor with only `parent_class` set and a name whose first
segment differs from the class name. -/
def dParNoEl : MethodDescriptor :=
  { dPlain with parent_class := some pcP }

/-- A descriptor with only `parent_class` set and a name whose first
segment equals the class name (elision case). -/
def dParEl : MethodDescriptor :=
  { dPlain with parent_class := some pcP, name := "Par.frob" }

/-- A descriptor named `Foo.bar`, for the interface-key elision example. -/
def dFooBar : MethodDescriptor := { dPlain with name := "Foo.bar" }

/-- A descriptor named `baz`, for the interface-key non-elision example. -/
def dBaz : MethodDescriptor := { dPlain with name := "baz" }

/-- A descriptor whose input message still has the default namespace. -/
def dDefNs : MethodDescriptor := { dPlain with in_message := msgDefNs }

/-- A descriptor with a one-entry translations dict. -/
def dTrans : MethodDescriptor :=
  { dPlain with translations := some [("en_US", "E")] }

/-- A construction run with `BARE` body style and a sub-named input
message. -/
def constructBare : Except ConstructError MethodDescriptor :=
  MethodDescriptor.construct fnF msgA msgB Option.none false false false
    HeaderVal.pynone HeaderVal.pynone [] (some pcP) Option.none false []
    "ck" Option.none [] BodyStyle.BARE Option.none "op" true Option.none
    Option.none Option.none Option.none Option.none "_sfx" Option.none

/-- The descriptor produced by `constructBare`. -/
def dBare : MethodDescriptor :=
  match constructBare with
  | Except.ok d => d
  | Except.error _ => dPlain

/-- A construction run with `WRAPPED` body style. -/
def constructWrapped : Except ConstructError MethodDescriptor :=
  MethodDescriptor.construct fnF msgB msgA Option.none false false false
    HeaderVal.pynone HeaderVal.pynone [] (some pcP) Option.none false []
    "ck" Option.none [] BodyStyle.WRAPPED Option.none "op" true Option.none
    Option.none Option.none Option.none Option.none "_sfx" Option.none

/-- The descriptor produced by `constructWrapped`. -/
def dWrapped : MethodDescriptor :=
  match constructWrapped with
  | Except.ok d => d
  | Except.error _ => dPlain

/-! Claim theorems. -/

/-- C1: `internal_key` follows exactly the three-case rule: with
`service_class` set it is brace-wrapped service internal key, then the
function's declared name, then `internal_key_suffix`; otherwise with
`parent_class` set it is brace-wrapped module then `ClassName.name`, the
class segment being elided when the first dot-separated segment of `name`
equals the parent class's name; with neither set it is absent. -/
theorem C1_internal_key_cases (d : MethodDescriptor) :
    (∀ sc, d.service_class = some sc →
      d.internal_key = some ("\x7b" ++ sc.internal_key ++ "\x7d" ++
        d.function.name ++ d.internal_key_suffix)) ∧
    (∀ pc, d.service_class = Option.none → d.parent_class = some pc →
      d.internal_key = some
        (if firstSegment d.name = pc.name then
          "\x7b" ++ pc.module ++ "\x7d" ++ d.name
        else
          "\x7b" ++ pc.module ++ "\x7d" ++ pc.name ++ "." ++ d.name)) ∧
    (d.service_class = Option.none → d.parent_class = Option.none →
      d.internal_key = Option.none) := by
  refine ⟨?_, ?_, ?_⟩
  · intro sc hs
    simp [MethodDescriptor.internal_key, hs, get_function_name]
  · intro pc hs hp
    simp only [MethodDescriptor.internal_key, hs, hp]
    by_cases h : firstSegment d.name = pc.name <;> simp [h]
  · intro hs hp
    simp [MethodDescriptor.internal_key, hs, hp]

/-- C1 witness: the three cases evaluated on concrete descriptors. -/
theorem C1_internal_key_cases_witness :
    dSvc.internal_key = some "\x7bpkg.svc.SomeService\x7ddo_thing_sfx" ∧
    dParNoEl.internal_key = some "\x7bpkg.model\x7dPar.mname" ∧
    dParEl.internal_key = some "\x7bpkg.model\x7dPar.frob" ∧
    dPlain.internal_key = Option.none := by
  refine ⟨?_, ?_, ?_, ?_⟩
  · exact ((C1_internal_key_cases dSvc).1 svcS rfl).trans (by decide)
  · exact ((C1_internal_key_cases dParNoEl).2.1 pcP rfl rfl).trans (by decide)
  · exact ((C1_internal_key_cases dParEl).2.1 pcP rfl rfl).trans (by decide)
  · exact (C1_internal_key_cases dPlain).2.2 rfl rfl

/-- C3: the `key` property fails its assertion exactly when the input
message's namespace is the reserved default namespace; otherwise it returns
the brace-wrapped namespace followed by the type name. -/
theorem C3_key_contract (d : MethodDescriptor) :
    (d.in_message.get_namespace = DEFAULT_NS → d.key = Option.none) ∧
    (d.in_message.get_namespace ≠ DEFAULT_NS →
      d.key = some ("\x7b" ++ d.in_message.get_namespace ++ "\x7d" ++
        d.in_message.get_type_name)) := by
  constructor <;> intro h <;> simp [MethodDescriptor.key, h]

/-- C3 witness: a default-namespace message makes `key` fail; a proper
namespace yields the formatted key. -/
theorem C3_key_contract_witness :
    dDefNs.key = Option.none ∧ dPlain.key = some "\x7burn:ns\x7dTypeA" := by
  constructor
  · exact (C3_key_contract dDefNs).1 rfl
  · exact ((C3_key_contract dPlain).2 (by decide)).trans (by decide)

/-- C8: `is_out_bare` is true for exactly the four body styles `EMPTY`,
`BARE`, `OUT_BARE` and `EMPTY_OUT_BARE`, and false for `WRAPPED`. -/
theorem C8_is_out_bare_exact (d : MethodDescriptor) :
    (d.is_out_bare = true ↔
      (d.body_style = BodyStyle.EMPTY ∨ d.body_style = BodyStyle.BARE ∨
       d.body_style = BodyStyle.OUT_BARE ∨
       d.body_style = BodyStyle.EMPTY_OUT_BARE)) ∧
    (d.body_style = BodyStyle.WRAPPED → d.is_out_bare = false) := by
  cases h : d.body_style <;>
    simp [MethodDescriptor.is_out_bare, h, List.contains]

/-- C8 witness: evaluated on a concrete wrapped-style descriptor. -/
theorem C8_is_out_bare_exact_witness : dPlain.is_out_bare = false :=
  (C8_is_out_bare_exact dPlain).2 rfl

/-- C9: `reset_function` with a supplied replacement rebinds both the live
`function` reference and the captured real-function slot to it; with no
argument it rebinds `function` from the captured slot, which itself stays
unchanged. -/
theorem C9_reset_function_contract (d : MethodDescriptor) :
    (∀ v, (d.reset_function (some v)).function = v ∧
          (d.reset_function (some v)).real_function = v) ∧
    ((d.reset_function Option.none).function = d.real_function ∧
     (d.reset_function Option.none).real_function = d.real_function) := by
  simp [MethodDescriptor.reset_function]

/-- C9 witness: evaluated on a concrete descriptor and replacement. -/
theorem C9_reset_function_contract_witness :
    (dPlain.reset_function (some fnG)).function = fnG ∧
    (dPlain.reset_function Option.none).function = fnF := by
  constructor
  · exact ((C9_reset_function_contract dPlain).1 fnG).1
  · exact ((C9_reset_function_contract dPlain).2.1).trans (by decide)

/-- C10: when both `service_class` and `parent_class` are set, the
`service_class` branch of `internal_key` takes strict precedence and the
parent class is ignored. -/
theorem C10_service_class_precedence (d : MethodDescriptor)
    (sc : ServiceClass) (pc : ParentClass)
    (hs : d.service_class = some sc) (_hp : d.parent_class = some pc) :
    d.internal_key = some ("\x7b" ++ sc.internal_key ++ "\x7d" ++
      d.function.name ++ d.internal_key_suffix) := by
  simp [MethodDescriptor.internal_key, hs, get_function_name]

/-- C10 witness: a descriptor with both owners set takes the service
branch. -/
theorem C10_service_class_precedence_witness :
    dSvc.internal_key = some "\x7bpkg.svc.SomeService\x7ddo_thing_sfx" :=
  (C10_service_class_precedence dSvc svcS pcP rfl rfl).trans (by decide)

/-- C2: `gen_interface_key` joins with dots: for a service owner, module,
owner name (declared service name when defined, else the raw type name) and
`name`; for a structured-type owner, namespace (with the `__nons__`
placeholder when the namespace is unset, i.e. falsy), type name and `name`,
the type-name segment being elided when the first dot-separated segment of
`name` equals the type name. -/
theorem C2_gen_interface_key_rule (d : MethodDescriptor) :
    (∀ s, d.gen_interface_key (OwnerClass.service s) =
      s.module ++ "." ++
        (match s.service_name with
         | some n => n
         | Option.none => s.name) ++ "." ++ d.name) ∧
    (∀ c, d.gen_interface_key (OwnerClass.complexType c) =
      (let mn : String :=
        match c.namespace_ with
        | Option.none => "__nons__"
        | some s => if s = "" then "__nons__" else s
      if firstSegment d.name = c.type_name then
        mn ++ "." ++ d.name
      else
        mn ++ "." ++ c.type_name ++ "." ++ d.name)) := by
  constructor
  · intro s
    cases h : s.service_name <;>
      simp [MethodDescriptor.gen_interface_key,
            MethodDescriptor.get_owner_name, ServiceClass.get_service_name, h]
  · intro c
    simp only [MethodDescriptor.gen_interface_key, ParentClass.get_namespace,
               ParentClass.get_type_name, pyOrStr]
    by_cases h : firstSegment d.name = c.type_name <;>
      simp [h, String.intercalate, String.intercalate.go, String.append_assoc]

/-- C2 witness: the spec's elision examples with owner type name `Foo`:
name `Foo.bar` yields a key ending in `Foo.bar` (not `Foo.Foo.bar`), name
`baz` yields one ending in `Foo.baz`; plus a service-owner example. -/
theorem C2_gen_interface_key_rule_witness :
    dFooBar.gen_interface_key (OwnerClass.complexType cFoo) =
      "urn:pns.Foo.bar" ∧
    dBaz.gen_interface_key (OwnerClass.complexType cFoo) =
      "urn:pns.Foo.baz" ∧
    dPlain.gen_interface_key (OwnerClass.service svcS) =
      "pkg.svc.some_svc.mname" := by
  refine ⟨?_, ?_, ?_⟩
  · exact ((C2_gen_interface_key_rule dFooBar).2 cFoo).trans (by decide)
  · exact ((C2_gen_interface_key_rule dBaz).2 cFoo).trans (by decide)
  · exact ((C2_gen_interface_key_rule dPlain).1 svcS).trans (by decide)

/-- C5: header assignment (identically for `in_header` and `out_header`)
stores a single structured-type reference as a one-element tuple, keeps an
absent value absent, keeps a tuple unchanged, and fails its assertion on
any other shape; reading the field afterwards returns exactly the stored
normalized value. -/
theorem C5_header_normalization (d : MethodDescriptor) :
    (∀ m, (d.set_in_header (HeaderVal.model m)).map MethodDescriptor.in_header
        = some (HeaderVal.tup [HeaderVal.model m])) ∧
    ((d.set_in_header HeaderVal.pynone).map MethodDescriptor.in_header
        = some HeaderVal.pynone) ∧
    (∀ xs, (d.set_in_header (HeaderVal.tup xs)).map MethodDescriptor.in_header
        = some (HeaderVal.tup xs)) ∧
    (∀ t, d.set_in_header (HeaderVal.other t) = Option.none) ∧
    (∀ m, (d.set_out_header (HeaderVal.model m)).map
        MethodDescriptor.out_header = some (HeaderVal.tup [HeaderVal.model m])) ∧
    ((d.set_out_header HeaderVal.pynone).map MethodDescriptor.out_header
        = some HeaderVal.pynone) ∧
    (∀ xs, (d.set_out_header (HeaderVal.tup xs)).map MethodDescriptor.out_header
        = some (HeaderVal.tup xs)) ∧
    (∀ t, d.set_out_header (HeaderVal.other t) = Option.none) := by
  refine ⟨?_, ?_, ?_, ?_, ?_, ?_, ?_, ?_⟩ <;>
    simp [MethodDescriptor.set_in_header, MethodDescriptor.set_out_header,
          set_header]

/-- C5 witness: the four shapes evaluated on a concrete descriptor. -/
theorem C5_header_normalization_witness :
    (dPlain.set_in_header (HeaderVal.model 7)).map MethodDescriptor.in_header
      = some (HeaderVal.tup [HeaderVal.model 7]) ∧
    (dPlain.set_out_header HeaderVal.pynone).map MethodDescriptor.out_header
      = some HeaderVal.pynone ∧
    (dPlain.set_in_header (HeaderVal.tup [])).map MethodDescriptor.in_header
      = some (HeaderVal.tup []) ∧
    dPlain.set_out_header (HeaderVal.other 3) = Option.none := by
  refine ⟨?_, ?_, ?_, ?_⟩
  · exact (C5_header_normalization dPlain).1 7
  · exact (C5_header_normalization dPlain).2.2.2.2.2.1
  · exact (C5_header_normalization dPlain).2.2.1 []
  · exact (C5_header_normalization dPlain).2.2.2.2.2.2.2 3

/-- C7: `translate(locale, default)` is a soft lookup: with no translations
dict the default is returned; with a dict, the entry for the effective
locale (an absent locale is treated as `en_US`) is returned when present,
else the default; no error is possible. -/
theorem C7_translate_soft_lookup (d : MethodDescriptor)
    (locale : Option String) (default : String) :
    (d.translations = Option.none → d.translate locale default = default) ∧
    (∀ ts tr, d.translations = some ts →
      ts.lookup (locale.getD "en_US") = some tr →
      d.translate locale default = tr) ∧
    (∀ ts, d.translations = some ts →
      ts.lookup (locale.getD "en_US") = Option.none →
      d.translate locale default = default) := by
  refine ⟨?_, ?_, ?_⟩
  · intro h
    simp [MethodDescriptor.translate, h]
  · intro ts tr h hl
    cases locale <;>
      (simp only [Option.getD] at hl
       simp [MethodDescriptor.translate, h, hl])
  · intro ts h hl
    cases locale <;>
      (simp only [Option.getD] at hl
       simp [MethodDescriptor.translate, h, hl])

/-- C7 witness: the spec's examples with the dict mapping `en_US` to `E`:
an absent locale returns `E`, the unmapped locale `fr_FR` returns the
default `D`, and with no dict any locale returns the default. -/
theorem C7_translate_soft_lookup_witness :
    dTrans.translate Option.none "D" = "E" ∧
    dTrans.translate (some "fr_FR") "D" = "D" ∧
    dPlain.translate (some "de_DE") "D" = "D" := by
  refine ⟨?_, ?_, ?_⟩
  · exact (C7_translate_soft_lookup dTrans Option.none "D").2.1
      [("en_US", "E")] "E" rfl (by decide)
  · exact (C7_translate_soft_lookup dTrans (some "fr_FR") "D").2.2
      [("en_US", "E")] rfl (by decide)
  · exact (C7_translate_soft_lookup dPlain (some "de_DE") "D").1 rfl

/-- C4: for every successful construction, the derived `name` equals the
input message's sub-name when the body style is `BARE` and that sub-name is
defined, and equals the input message's declared type name for every other
body style and when `BARE` yields no sub-name; `name` is fixed once by the
construction run. -/
theorem C4_name_derivation (function : FunctionRef)
    (in_message : MessageType) (out_message : MessageType)
    (doc : Option String) (is_callback : Bool) (is_async : Bool)
    (mtom : Bool) (in_header : HeaderVal) (out_header : HeaderVal)
    (faults : List Nat) (parent_class : Option ParentClass)
    (port_type : Option Nat) (no_ctx : Bool) (udd : List (String × Nat))
    (class_key : String) (aux : Option Nat) (patterns : List Nat)
    (body_style : BodyStyle) (args : Option (List String))
    (operation_name : String) (no_self : Bool)
    (translations : Option (List (String × String)))
    (when : Option Nat) (static_when : Option Nat)
    (service_class : Option ServiceClass) (href : Option Nat)
    (internal_key_suffix : String) (default_on_null : Option Nat)
    (d : MethodDescriptor)
    (h : MethodDescriptor.construct function in_message out_message doc
      is_callback is_async mtom in_header out_header faults parent_class
      port_type no_ctx udd class_key aux patterns body_style args
      operation_name no_self translations when static_when service_class
      href internal_key_suffix default_on_null = Except.ok d) :
    (∀ sn, body_style = BodyStyle.BARE → in_message.sub_name = some sn →
      d.name = sn) ∧
    ((body_style ≠ BodyStyle.BARE ∨ in_message.sub_name = Option.none) →
      d.name = in_message.get_type_name) := by
  simp only [MethodDescriptor.construct] at h
  split at h
  · exact absurd h (by simp)
  · split at h
    · exact absurd h (by simp)
    · split at h
      · exact absurd h (by simp)
      · injection h with h
        subst h
        constructor
        · intro sn hb hs
          simp [hb, hs]
        · intro hx
          by_cases hb : body_style = BodyStyle.BARE
          · rcases hx with hx | hx
            · exact absurd hb hx
            · simp [hb, hx]
          · simp [hb]

/-- C4 witness: a `BARE` construction names the descriptor after the
sub-name, a `WRAPPED` one after the type name. -/
theorem C4_name_derivation_witness :
    dBare.name = "subA" ∧ dWrapped.name = "TypeB" := by
  constructor
  · exact (C4_name_derivation fnF msgA msgB Option.none false false false
      HeaderVal.pynone HeaderVal.pynone [] (some pcP) Option.none false []
      "ck" Option.none [] BodyStyle.BARE Option.none "op" true Option.none
      Option.none Option.none Option.none Option.none "_sfx" Option.none
      dBare rfl).1 "subA" rfl rfl
  · exact (C4_name_derivation fnF msgB msgA Option.none false false false
      HeaderVal.pynone HeaderVal.pynone [] (some pcP) Option.none false []
      "ck" Option.none [] BodyStyle.WRAPPED Option.none "op" true Option.none
      Option.none Option.none Option.none Option.none "_sfx" Option.none
      dWrapped rfl).2 (Or.inl (by decide))

/-- C6: with well-shaped header inputs, construction fails with the
`LogicError` exactly when `default_on_null` is supplied while
`parent_class` is absent, and succeeds when both are supplied. -/
theorem C6_default_on_null_check (function : FunctionRef)
    (in_message : MessageType) (out_message : MessageType)
    (doc : Option String) (is_callback : Bool) (is_async : Bool)
    (mtom : Bool) (in_header : HeaderVal) (out_header : HeaderVal)
    (faults : List Nat) (parent_class : Option ParentClass)
    (port_type : Option Nat) (no_ctx : Bool) (udd : List (String × Nat))
    (class_key : String) (aux : Option Nat) (patterns : List Nat)
    (body_style : BodyStyle) (args : Option (List String))
    (operation_name : String) (no_self : Bool)
    (translations : Option (List (String × String)))
    (when : Option Nat) (static_when : Option Nat)
    (service_class : Option ServiceClass) (href : Option Nat)
    (internal_key_suffix : String) (default_on_null : Option Nat)
    (hin : set_header in_header ≠ Option.none)
    (hout : set_header out_header ≠ Option.none) :
    ((∃ msg, MethodDescriptor.construct function in_message out_message doc
        is_callback is_async mtom in_header out_header faults parent_class
        port_type no_ctx udd class_key aux patterns body_style args
        operation_name no_self translations when static_when service_class
        href internal_key_suffix default_on_null
        = Except.error (ConstructError.logicError msg)) ↔
      (default_on_null ≠ Option.none ∧ parent_class = Option.none)) ∧
    ((default_on_null ≠ Option.none ∧ parent_class ≠ Option.none) →
      ∃ d, MethodDescriptor.construct function in_message out_message doc
        is_callback is_async mtom in_header out_header faults parent_class
        port_type no_ctx udd class_key aux patterns body_style args
        operation_name no_self translations when static_when service_class
        href internal_key_suffix default_on_null = Except.ok d) := by
  cases hi : set_header in_header with
  | none => exact absurd hi hin
  | some ih =>
    cases ho : set_header out_header with
    | none => exact absurd ho hout
    | some oh =>
      simp only [MethodDescriptor.construct, hi, ho]
      by_cases hd : (default_on_null.isSome && parent_class.isNone) = true
      · rw [if_pos hd]
        rw [Bool.and_eq_true, Option.isSome_iff_ne_none,
            Option.isNone_iff_eq_none] at hd
        refine ⟨⟨fun _ => ⟨hd.1, hd.2⟩, fun _ => ⟨_, rfl⟩⟩, ?_⟩
        rintro ⟨_, h2⟩
        exact absurd hd.2 h2
      · rw [if_neg hd]
        refine ⟨⟨?_, ?_⟩, fun _ => ⟨_, rfl⟩⟩
        · rintro ⟨msg, hmsg⟩
          exact absurd hmsg (by simp)
        · rintro ⟨h1, h2⟩
          rw [Bool.and_eq_true, Option.isSome_iff_ne_none,
              Option.isNone_iff_eq_none] at hd
          exact absurd ⟨h1, h2⟩ hd

/-- C6 witness: `default_on_null` without `parent_class` raises the
`LogicError`; with `parent_class` present the construction succeeds. -/
theorem C6_default_on_null_check_witness :
    (∃ msg, MethodDescriptor.construct fnF msgA msgB Option.none false false
      false HeaderVal.pynone HeaderVal.pynone [] Option.none Option.none
      false [] "ck" Option.none [] BodyStyle.WRAPPED Option.none "op" true
      Option.none Option.none Option.none Option.none Option.none "_sfx"
      (some 0) = Except.error (ConstructError.logicError msg)) ∧
    (∃ d, MethodDescriptor.construct fnF msgA msgB Option.none false false
      false HeaderVal.pynone HeaderVal.pynone [] (some pcP) Option.none
      false [] "ck" Option.none [] BodyStyle.WRAPPED Option.none "op" true
      Option.none Option.none Option.none Option.none Option.none "_sfx"
      (some 0) = Except.ok d) := by
  constructor
  · exact (C6_default_on_null_check fnF msgA msgB Option.none false false
      false HeaderVal.pynone HeaderVal.pynone [] Option.none Option.none
      false [] "ck" Option.none [] BodyStyle.WRAPPED Option.none "op" true
      Option.none Option.none Option.none Option.none Option.none "_sfx"
      (some 0) (by simp [set_header]) (by simp [set_header])).1.mpr
      ⟨by simp, rfl⟩
  · exact (C6_default_on_null_check fnF msgA msgB Option.none false false
      false HeaderVal.pynone HeaderVal.pynone [] (some pcP) Option.none
      false [] "ck" Option.none [] BodyStyle.WRAPPED Option.none "op" true
      Option.none Option.none Option.none Option.none Option.none "_sfx"
      (some 0) (by simp [set_header]) (by simp [set_header])).2
      ⟨by simp, by simp⟩

end Spyne
